import Mathlib

/-
A shallow embedding of the Intel 8080 emulator core found in
`src/emulator/src/core/emulator.rs` and
`src/emulator/src/core/emulator/instructions/special.rs`, together with
theorems checking the statements the specification makes about it.

Conventions of the embedding:
 * Rust `u16`/`u8` values are `Nat`s; casts `as u8` / `as u16` become `% 256`
   / `% 65536` at the places the source casts.  The guard computations
   `self.sp + 2` and `self.pc + 2` are modelled as exact `Nat` additions
   (in the source an overflow there would abort before the guard could
   pass, and both guards bound the subsequent increments, so on every
   state reachable with in-range values the model agrees with the code).
 * `&mut self` methods returning `EResult<T>` become functions
   `Emulator → Except EErr T × Emulator`: the returned state is the state
   at the return point, so an early `return Err(..)` yields the entry
   state unchanged, and `?`-propagation keeps whatever had mutated so far.
 * A Rust `unimplemented!()` is not a returned `Result`; it is modelled as
   the distinguished outcome `EErr.panic` (its argument is the panic
   message), kept apart from `EErr.err`, which models `Result::Err`.
-/

namespace Emu8080

/-- The five condition flags, keyed in the source by the strings
`"zero"`, `"carry"`, `"sign"`, `"parity"`, `"aux"`. -/
inductive Flag
  | zero
  | carry
  | sign
  | parity
  | aux
deriving DecidableEq

/-- The two register pairs the fragment under `src/` pushes and pops
(`self.reg["bc"]`, `self.reg["de"]`). -/
inductive Pair
  | bc
  | de
deriving DecidableEq

/-- Modelled from the spec: the register file
(`crate::core::register::RegisterArray`) is not under `src/`.  Spec §3/§4.2:
seven 8-bit registers A, B, C, D, E, H, L plus the five condition flags
S, Z, AC, P, CY; the flags are kept as booleans (the representation recommended in spec §9) and the 16-bit pair views are concatenations (high, low). -/
structure RegisterArray where
  a : Nat
  b : Nat
  c : Nat
  d : Nat
  e : Nat
  h : Nat
  l : Nat
  zero : Bool
  carry : Bool
  sign : Bool
  parity : Bool
  aux : Bool

/-- Flag read `self.reg.get_flag(flag)` of the spec-modelled register file. -/
def RegisterArray.get_flag (r : RegisterArray) : Flag → Bool
  | .zero => r.zero
  | .carry => r.carry
  | .sign => r.sign
  | .parity => r.parity
  | .aux => r.aux

/-- Flag write `self.reg.set_flag(flag, v)` of the spec-modelled register file. -/
def RegisterArray.set_flag (r : RegisterArray) (f : Flag) (v : Bool) : RegisterArray :=
  match f with
  | .zero => { r with zero := v }
  | .carry => { r with carry := v }
  | .sign => { r with sign := v }
  | .parity => { r with parity := v }
  | .aux => { r with aux := v }

/-- Modelled from the spec: 16-bit pair read `self.reg["bc"]` / `self.reg["de"]`
(spec §4.2: BC = (B high, C low), DE = (D high, E low)). -/
def RegisterArray.pair (r : RegisterArray) : Pair → Nat
  | .bc => 256 * r.b + r.c
  | .de => 256 * r.d + r.e

/-- Modelled from the spec: 16-bit pair write `self.reg["de"] = v`
(spec §4.2: writing a pair writes both halves). -/
def RegisterArray.set_de (r : RegisterArray) (v : Nat) : RegisterArray :=
  { r with d := v / 256 % 256, e := v % 256 }

/-- Modelled from the spec: the HL pair view, used by the `M` operand
selector (spec §4.5). -/
def RegisterArray.hl (r : RegisterArray) : Nat := 256 * r.h + r.l

/-- Outcome of a fallible operation.  Here `err s` models `Result::Err(s)` (the
source type `EResult` carries static string messages); `panic s` models a Rust
`unimplemented!()` panic, which does not return a result at all. -/
inductive EErr
  | err : String → EErr
  | panic : String → EErr
deriving DecidableEq

/-- State of `struct Emulator` (emulator.rs:6-11): the 16-bit `pc` and `sp`,
the RAM behind `Box<dyn RAM>`, and the register file.  The RAM module
(`crate::core::ram`) is not under `src/`; modelled from the spec: the store is
a byte per address and any 16-bit address is valid (spec §3/§4.1), so it is a
total function, and `size` is the value its `size()` method reports (the only
other way the code under `src/` observes it). -/
structure Emulator where
  pc : Nat
  sp : Nat
  ram : Nat → Nat
  size : Nat
  reg : RegisterArray

/-- Pointwise memory update, `self.ram[a] = v`. -/
def setMem (m : Nat → Nat) (a v : Nat) : Nat → Nat :=
  fun x => if x = a then v else m x

/-- Fuel-driven bit count; 16 bits of fuel cover every value the emulator
stores in a register. -/
def countOnesAux : Nat → Nat → Nat
  | 0, _ => 0
  | fuel + 1, n => n % 2 + countOnesAux fuel (n / 2)

/-- Bit count `count_ones` of an (at most 16-bit) value, as used by the parity flag. -/
def countOnes (n : Nat) : Nat := countOnesAux 16 n

/-- Modelled from the spec: recompute Z, S, P from an 8-bit result
(spec §4.5 flag rules: Z iff result = 0, S iff bit 7, P iff the count of set
bits is even).  Used only by the spec-modelled ALU handlers below. -/
def RegisterArray.setZSP (r : RegisterArray) (res : Nat) : RegisterArray :=
  { r with
    zero := decide (res = 0)
    sign := decide (128 ≤ res % 256)
    parity := decide (countOnes res % 2 = 0) }

/-- Modelled from the spec: the operand selector (spec §4.5): the low three
bits of the opcode pick B, C, D, E, H, L, M = memory at HL, or A. -/
def operand (e : Emulator) (s : Nat) : Nat :=
  match s with
  | 0 => e.reg.b
  | 1 => e.reg.c
  | 2 => e.reg.d
  | 3 => e.reg.e
  | 4 => e.reg.h
  | 5 => e.reg.l
  | 6 => e.ram e.reg.hl
  | _ => e.reg.a

/-- Modelled from the spec: the ADD/ADC handler dispatched at
emulator.rs:27-34 lives in the instructions module missing from `src/`.
Spec §4.5: A ← A + S (+ CY for ADC); CY = bit-8 carry out; AC = carry out of
bit 3; Z, S, P from the result. -/
def add (e : Emulator) (opcode : Nat) (withCarry : Bool) : Except EErr Unit × Emulator :=
  let s := operand e (opcode % 8)
  let cin := if withCarry && e.reg.carry then 1 else 0
  let sum := e.reg.a + s + cin
  let r := { e.reg with
    a := sum % 256
    carry := decide (256 ≤ sum)
    aux := decide (16 ≤ e.reg.a % 16 + s % 16 + cin) }
  (.ok (), { e with reg := r.setZSP (sum % 256) })

/-- Modelled from the spec: the SUB/SBB handler dispatched at
emulator.rs:35-42 is missing from `src/`.  Spec §4.5: A ← A − S (− CY for
SBB); CY = borrow; AC = low-nibble borrow; Z, S, P from the result. -/
def sub (e : Emulator) (opcode : Nat) (withBorrow : Bool) : Except EErr Unit × Emulator :=
  let s := operand e (opcode % 8)
  let cin := if withBorrow && e.reg.carry then 1 else 0
  let res := (e.reg.a + 512 - (s + cin)) % 256
  let r := { e.reg with
    a := res
    carry := decide (e.reg.a < s + cin)
    aux := decide (e.reg.a % 16 < s % 16 + cin) }
  (.ok (), { e with reg := r.setZSP res })

/-- Modelled from the spec: the ANA handler dispatched at emulator.rs:43-46
is missing from `src/`.  Spec §4.5: A ← A AND S; CY cleared; AC = bit 3 of A
OR bit 3 of S; Z, S, P from the result. -/
def and (e : Emulator) (opcode : Nat) : Except EErr Unit × Emulator :=
  let s := operand e (opcode % 8)
  let res := e.reg.a &&& s
  let r := { e.reg with
    a := res
    carry := false
    aux := e.reg.a.testBit 3 || s.testBit 3 }
  (.ok (), { e with reg := r.setZSP res })

/-- Modelled from the spec: the XRA handler dispatched at emulator.rs:47-50
is missing from `src/`.  Spec §4.5: A ← A XOR S; CY and AC cleared; Z, S, P
from the result. -/
def xor (e : Emulator) (opcode : Nat) : Except EErr Unit × Emulator :=
  let s := operand e (opcode % 8)
  let res := e.reg.a ^^^ s
  let r := { e.reg with a := res, carry := false, aux := false }
  (.ok (), { e with reg := r.setZSP res })

/-- Modelled from the spec: the ORA handler dispatched at emulator.rs:51-54
is missing from `src/`.  Spec §4.5: A ← A OR S; CY and AC cleared; Z, S, P
from the result. -/
def or (e : Emulator) (opcode : Nat) : Except EErr Unit × Emulator :=
  let s := operand e (opcode % 8)
  let res := e.reg.a ||| s
  let r := { e.reg with a := res, carry := false, aux := false }
  (.ok (), { e with reg := r.setZSP res })

/-- Rust `fn push(&mut self, val: u16)` (emulator.rs:380-389): guard `sp < 2`,
then pre-decrement and store the high byte, pre-decrement and store the low
byte. -/
def push (e : Emulator) (val : Nat) : Except EErr Unit × Emulator :=
  if e.sp < 2 then (.error (.err "PUSH: No more stack space"), e)
  else
    let e1 := { e with sp := e.sp - 1 }
    let e2 := { e1 with ram := setMem e1.ram e1.sp ((val >>> 8) % 256) }
    let e3 := { e2 with sp := e2.sp - 1 }
    let e4 := { e3 with ram := setMem e3.ram e3.sp (val % 256) }
    (.ok (), e4)

/-- Rust `fn push_reg(&mut self, reg: &str)` (emulator.rs:391-393). -/
def push_reg (e : Emulator) (p : Pair) : Except EErr Unit × Emulator :=
  push e (e.reg.pair p)

/-- Rust `fn pop(&mut self)` (emulator.rs:395-405): guard
`sp + 2 > self.ram.size() as u16`, then read the low byte, post-increment,
read the high byte, post-increment, and return `(high << 8) | low`. -/
def pop (e : Emulator) : Except EErr Nat × Emulator :=
  if e.sp + 2 > e.size % 65536 then
    (.error (.err "POP: No return address on the stack"), e)
  else
    let low := e.ram e.sp
    let e1 := { e with sp := e.sp + 1 }
    let high := e1.ram e1.sp
    let e2 := { e1 with sp := e1.sp + 1 }
    (.ok ((high <<< 8) ||| low), e2)

/-- Rust `fn read_addr(&mut self)` (emulator.rs:407-416): guard
`pc + 2 > self.ram.size() as u16`, then read the low byte at `pc`, the high
byte at `pc + 1`, advancing `pc` past both, and return `(high << 8) | low`. -/
def read_addr (e : Emulator) : Except EErr Nat × Emulator :=
  if e.pc + 2 > e.size % 65536 then
    (.error (.err "READ_ADDR: Not enough bytes available"), e)
  else
    let low := e.ram e.pc
    let e1 := { e with pc := e.pc + 1 }
    let high := e1.ram e1.pc
    let e2 := { e1 with pc := e1.pc + 1 }
    (.ok ((high <<< 8) ||| low), e2)

/-- Rust `fn jmp_not(&mut self, flag: &str)` (emulator.rs:312-319). -/
def jmp_not (e : Emulator) (flag : Flag) : Except EErr Unit × Emulator :=
  if e.reg.get_flag flag = false then
    match read_addr e with
    | (.ok adr, e1) => (.ok (), { e1 with pc := adr })
    | (.error er, e1) => (.error er, e1)
  else (.ok (), { e with pc := e.pc + 2 })

/-- Rust `fn jmp_if(&mut self, flag: &str)` (emulator.rs:321-328). -/
def jmp_if (e : Emulator) (flag : Flag) : Except EErr Unit × Emulator :=
  if e.reg.get_flag flag = true then
    match read_addr e with
    | (.ok adr, e1) => (.ok (), { e1 with pc := adr })
    | (.error er, e1) => (.error er, e1)
  else (.ok (), { e with pc := e.pc + 2 })

/-- Rust `fn call_imm(&mut self)` (emulator.rs:348-353): read the target address,
push the (now advanced) `pc`, jump. -/
def call_imm (e : Emulator) : Except EErr Unit × Emulator :=
  match read_addr e with
  | (.error er, e1) => (.error er, e1)
  | (.ok adr, e1) =>
    match push e1 e1.pc with
    | (.error er, e2) => (.error er, e2)
    | (.ok _, e2) => (.ok (), { e2 with pc := adr })

/-- Rust `fn call(&mut self, adr: u16)` (emulator.rs:355-359): push the current
`pc`, jump to `adr`. -/
def call (e : Emulator) (adr : Nat) : Except EErr Unit × Emulator :=
  match push e e.pc with
  | (.error er, e1) => (.error er, e1)
  | (.ok _, e1) => (.ok (), { e1 with pc := adr })

/-- Rust `fn call_not(&mut self, flag: &str)` (emulator.rs:330-337). -/
def call_not (e : Emulator) (flag : Flag) : Except EErr Unit × Emulator :=
  if e.reg.get_flag flag = false then call_imm e
  else (.ok (), { e with pc := e.pc + 2 })

/-- Rust `fn call_if(&mut self, flag: &str)` (emulator.rs:339-346). -/
def call_if (e : Emulator) (flag : Flag) : Except EErr Unit × Emulator :=
  if e.reg.get_flag flag = true then call_imm e
  else (.ok (), { e with pc := e.pc + 2 })

/-- Rust `fn ret(&mut self)` (emulator.rs:375-378): pop and write the result to
`pc`. -/
def ret (e : Emulator) : Except EErr Unit × Emulator :=
  match pop e with
  | (.error er, e1) => (.error er, e1)
  | (.ok v, e1) => (.ok (), { e1 with pc := v })

/-- Rust `fn ret_if(&mut self, flag: &str)` (emulator.rs:361-366): return only
when the flag is set, otherwise do nothing. -/
def ret_if (e : Emulator) (flag : Flag) : Except EErr Unit × Emulator :=
  if e.reg.get_flag flag = true then ret e
  else (.ok (), e)

/-- Rust `fn ret_not(&mut self, flag: &str)` (emulator.rs:368-373): return only
when the flag is clear, otherwise do nothing. -/
def ret_not (e : Emulator) (flag : Flag) : Except EErr Unit × Emulator :=
  if e.reg.get_flag flag = false then ret e
  else (.ok (), e)

/-- Rust `fn daa(&mut self)` (instructions/special.rs:4-23), translated
line by line; `wrapping_add(6)` is `(· + 6) % 256`. -/
def daa (e : Emulator) : Except EErr Unit × Emulator :=
  let acc := e.reg.a
  let low := acc &&& 0x0F
  let step1 :=
    if 9 < low ∨ e.reg.get_flag .aux = true then ((acc + 6) % 256, low + 6)
    else (acc, low)
  let acc1 := step1.1
  let low1 := step1.2
  let high := (acc1 &&& 0xF0) >>> 4
  let high1 := if 9 < high ∨ e.reg.get_flag .carry = true then high + 6 else high
  let result := ((high1 &&& 0x0F) <<< 4) + (low1 &&& 0x0F)
  let r := e.reg
  let r := r.set_flag .aux (decide (0x0F < low1))
  let r := r.set_flag .carry (decide (0x0F < high1))
  let r := r.set_flag .zero (decide (result = 0))
  let r := r.set_flag .sign (decide (result &&& 0x80 ≠ 0))
  let r := r.set_flag .parity (decide (countOnes result &&& 1 = 0))
  (.ok (), { e with reg := { r with a := result } })

/-- The `match opcode` body of `execute_next` (emulator.rs:26-308), applied to
the state after the opcode fetch (`self.pc += 1`).  Arms appear in source
order; every `unimplemented!()` arm (including the final catch-all, which is
what the undispatched opcodes 0x00-0x7f — among them 0x27, DAA — fall into)
produces a `panic` outcome with the corresponding panic message. -/
def dispatch (op : Nat) (e : Emulator) : Except EErr Unit × Emulator :=
  if 0x80 ≤ op ∧ op ≤ 0x87 then add e op false
  else if 0x88 ≤ op ∧ op ≤ 0x8F then add e op true
  else if 0x90 ≤ op ∧ op ≤ 0x97 then sub e op false
  else if 0x98 ≤ op ∧ op ≤ 0x9F then sub e op true
  else if 0xA0 ≤ op ∧ op ≤ 0xA7 then and e op
  else if 0xA8 ≤ op ∧ op ≤ 0xAF then xor e op
  else if 0xB0 ≤ op ∧ op ≤ 0xB7 then or e op
  else if op = 0xc0 then ret_not e .zero
  else if op = 0xc1 then (.error (.panic "not implemented"), e)
  else if op = 0xc2 then jmp_not e .zero
  else if op = 0xc3 then
    match read_addr e with
    | (.ok adr, e1) => (.ok (), { e1 with pc := adr })
    | (.error er, e1) => (.error er, e1)
  else if op = 0xc4 then (.error (.panic "not implemented"), e)
  else if op = 0xc5 then push_reg e .bc
  else if op = 0xc6 then (.error (.panic "not implemented"), e)
  else if op = 0xc7 then call e 0x0
  else if op = 0xc8 then ret_if e .zero
  else if op = 0xc9 then ret e
  else if op = 0xca then jmp_if e .zero
  else if op = 0xcc then call_if e .zero
  else if op = 0xcd then call_imm e
  else if op = 0xce then (.error (.panic "not implemented"), e)
  else if op = 0xcf then call e 0x8
  else if op = 0xd0 then ret_not e .carry
  else if op = 0xd1 then
    match pop e with
    | (.ok v, e1) => (.ok (), { e1 with reg := e1.reg.set_de v })
    | (.error er, e1) => (.error er, e1)
  else if op = 0xd2 then jmp_not e .carry
  else if op = 0xd3 then (.error (.panic "not implemented"), e)
  else if op = 0xd4 then call_not e .carry
  else if op = 0xd5 then push_reg e .de
  else if op = 0xd6 then (.error (.panic "not implemented"), e)
  else if op = 0xd7 then call e 0x10
  else if op = 0xd8 then ret_if e .carry
  else if op = 0xd9 then (.error (.panic "not implemented"), e)
  else if op = 0xda then jmp_if e .carry
  else if op = 0xdb then (.error (.panic "not implemented"), e)
  else if op = 0xdc then call_if e .carry
  else if op = 0xdd then (.error (.panic "not implemented"), e)
  else if op = 0xde then (.error (.panic "not implemented"), e)
  else if op = 0xdf then call e 0x18
  else if op = 0xe0 then ret_not e .parity
  else if op = 0xe1 then (.error (.panic "not implemented"), e)
  else if op = 0xe2 then jmp_not e .parity
  else if op = 0xe3 then (.error (.panic "not implemented"), e)
  else if op = 0xe4 then call_not e .parity
  else if op = 0xe5 then (.error (.panic "not implemented"), e)
  else if op = 0xe6 then (.error (.panic "not implemented"), e)
  else if op = 0xe7 then call e 0x20
  else if op = 0xe8 then ret_if e .parity
  else if op = 0xe9 then (.error (.panic "not implemented"), e)
  else if op = 0xea then jmp_if e .parity
  else if op = 0xeb then (.error (.panic "not implemented"), e)
  else if op = 0xec then call_if e .parity
  else if op = 0xed then (.error (.panic "not implemented"), e)
  else if op = 0xee then (.error (.panic "not implemented"), e)
  else if op = 0xef then call e 0x28
  else if op = 0xf0 then ret_not e .sign
  else if op = 0xf1 then (.error (.panic "not implemented"), e)
  else if op = 0xf2 then jmp_not e .sign
  else if op = 0xf3 then (.error (.panic "not implemented"), e)
  else if op = 0xf4 then call_not e .sign
  else if op = 0xf5 then (.error (.panic "not implemented"), e)
  else if op = 0xf6 then (.error (.panic "not implemented"), e)
  else if op = 0xf7 then call e 0x30
  else if op = 0xf8 then ret_if e .sign
  else if op = 0xf9 then (.error (.panic "not implemented"), e)
  else if op = 0xfa then jmp_if e .sign
  else if op = 0xfb then (.error (.panic "not implemented"), e)
  else if op = 0xfc then call_if e .sign
  else if op = 0xfd then (.error (.panic "not implemented"), e)
  else if op = 0xfe then (.error (.panic "not implemented"), e)
  else if op = 0xff then call e 0x38
  else (.error (.panic "Opcode not yet implemented"), e)

/-- Rust `pub fn execute_next(&mut self)` (emulator.rs:23-310): fetch the opcode
at `pc`, advance `pc`, dispatch. -/
def execute_next (e : Emulator) : Except EErr Unit × Emulator :=
  dispatch (e.ram e.pc) { e with pc := e.pc + 1 }

/-- Opcodes `execute_next` has a handler for: the seven ALU ranges plus the
individually dispatched branch/stack opcodes.  Everything else lands in an
`unimplemented!()` arm. -/
def handledList : List Nat :=
  [0xc0, 0xc2, 0xc3, 0xc5, 0xc7, 0xc8, 0xc9, 0xca, 0xcc, 0xcd, 0xcf,
   0xd0, 0xd1, 0xd2, 0xd4, 0xd5, 0xd7, 0xd8, 0xda, 0xdc, 0xdf,
   0xe0, 0xe2, 0xe4, 0xe7, 0xe8, 0xea, 0xec, 0xef,
   0xf0, 0xf2, 0xf4, 0xf7, 0xf8, 0xfa, 0xfc, 0xff]

/-- Whether an opcode has a handler in `execute_next`. -/
def isHandled (op : Nat) : Bool :=
  (0x80 ≤ op && op ≤ 0xb7) || handledList.contains op

/-- Discriminator: `true` exactly on outcomes that model an `unimplemented!()` panic. -/
def isPanicOutcome (r : Except EErr Unit × Emulator) : Bool :=
  match r with
  | (.error (.panic _), _) => true
  | _ => false

/-- Discriminator: `true` exactly on outcomes that model a returned `Result::Err`. -/
def isErrResult (r : Except EErr Unit × Emulator) : Bool :=
  match r with
  | (.error (.err _), _) => true
  | _ => false

/-- The eight conditional jumps of the opcode table:
(opcode, tested flag, taken-when value). -/
def jmpVariants : List (Nat × Flag × Bool) :=
  [(0xc2, .zero, false), (0xca, .zero, true),
   (0xd2, .carry, false), (0xda, .carry, true),
   (0xe2, .parity, false), (0xea, .parity, true),
   (0xf2, .sign, false), (0xfa, .sign, true)]

/-- The seven conditional calls `execute_next` dispatches.  CNZ (0xc4) is
absent: its arm is `unimplemented!()` (emulator.rs:71-74). -/
def callVariants : List (Nat × Flag × Bool) :=
  [(0xcc, .zero, true),
   (0xd4, .carry, false), (0xdc, .carry, true),
   (0xe4, .parity, false), (0xec, .parity, true),
   (0xf4, .sign, false), (0xfc, .sign, true)]

/-- The eight conditional returns: (opcode, tested flag, taken-when value). -/
def retVariants : List (Nat × Flag × Bool) :=
  [(0xc0, .zero, false), (0xc8, .zero, true),
   (0xd0, .carry, false), (0xd8, .carry, true),
   (0xe0, .parity, false), (0xe8, .parity, true),
   (0xf0, .sign, false), (0xf8, .sign, true)]

/-- Register file with all registers and flags zeroed. -/
def reg0 : RegisterArray :=
  { a := 0, b := 0, c := 0, d := 0, e := 0, h := 0, l := 0,
    zero := false, carry := false, sign := false, parity := false, aux := false }

/-
Concrete machine states.  The value 0x4000 used for `size` below is the one
the repository itself fixes: the in-src test `tests::push_pop`
(emulator.rs:426-438) asserts that `pop` succeeds at SP = 0x3ffd and fails at
SP = 0x3fff, which forces `self.ram.size() as u16` to be 0x3fff or 0x4000
(the default RAM is a 16 KiB store, the classic 8080 memory map, not the
64 KiB idealisation of spec §3 — at 64 KiB the first pop of that very test
would already fail, the cast `as u16` truncating 65536 to 0).  All theorems
quantified over `Emulator` are independent of this choice.
-/

/-- Machine refuting C1 as stated: SP = 0x4001 satisfies SP ≥ 2 and
SP + 2 ≤ 2^16, yet lies above the actual pop bound. -/
def cexC1 : Emulator :=
  { pc := 0, sp := 0x4001, ram := fun _ => 0, size := 0x4000, reg := reg0 }

/-- Machine for the C1 witness: the scenario of the repository test
`push_pop` (SP = 0x3fff). -/
def wC1 : Emulator :=
  { pc := 0, sp := 0x3fff, ram := fun _ => 0, size := 0x4000, reg := reg0 }

/-- Machine for the C2 witness: `CD 34 12` at 0, `C9` at 0x1234
(spec §8 scenario 2). -/
def wC2 : Emulator :=
  { pc := 0, sp := 0x3fff,
    ram := fun a => if a = 0 then 0xcd else if a = 1 then 0x34 else
      if a = 2 then 0x12 else if a = 0x1234 then 0xc9 else 0,
    size := 0x4000, reg := reg0 }

/-- Machine refuting C3 as stated: opcode CNZ (0xc4) with the zero flag set,
so the tested NZ condition is false. -/
def cexC3 : Emulator :=
  { pc := 0, sp := 0x3fff, ram := fun a => if a = 0 then 0xc4 else 0,
    size := 0x4000, reg := { reg0 with zero := true } }

/-- Machine for the C3 witness: `JNZ 1234h` with the zero flag clear. -/
def wC3 : Emulator :=
  { pc := 0, sp := 0x3fff,
    ram := fun a => if a = 0 then 0xc2 else if a = 1 then 0x34 else
      if a = 2 then 0x12 else 0,
    size := 0x4000, reg := reg0 }

/-- Machine about to execute RST 0 (0xc7) at PC = 0. -/
def rstStart : Emulator :=
  { pc := 0, sp := 0x3fff, ram := fun a => if a = 0 then 0xc7 else 0,
    size := 0x4000, reg := reg0 }

/-- Machine about to execute CALL 0x0000 (`CD 00 00`) at PC = 0. -/
def callStart : Emulator :=
  { pc := 0, sp := 0x3fff, ram := fun a => if a = 0 then 0xcd else 0,
    size := 0x4000, reg := reg0 }

/-- Machine for the C4 witness: RST 2 (0xd7) at PC = 0x1111
(spec §8 scenario 4). -/
def wC4 : Emulator :=
  { pc := 0x1111, sp := 0x3fff, ram := fun a => if a = 0x1111 then 0xd7 else 0,
    size := 0x4000, reg := reg0 }

/-- Machine refuting C5 as stated: PC = 0x5000 is nowhere near the top of a
64 KiB space, yet lies above the actual fetch bound. -/
def cexC5 : Emulator :=
  { pc := 0x5000, sp := 0x3fff, ram := fun _ => 0, size := 0x4000, reg := reg0 }

/-- Machine for the C5 witness: the little-endian pair `34 12` at PC = 0. -/
def wC5 : Emulator :=
  { pc := 0, sp := 0x3fff,
    ram := fun a => if a = 0 then 0x34 else if a = 1 then 0x12 else 0,
    size := 0x4000, reg := reg0 }

/-- Machine for the C6 witness: SP = 0x3fff, where the pop guard fires
(the second pop of the repository test `push_pop`). -/
def wC6 : Emulator :=
  { pc := 0, sp := 0x3fff, ram := fun _ => 0, size := 0x4000, reg := reg0 }

/-- Machine for the C7 witness: the bytes CD (low) and AB (high) sit at
SP = 0x1000 and SP + 1. -/
def wC7 : Emulator :=
  { pc := 0, sp := 0x1000,
    ram := fun a => if a = 0x1000 then 0xCD else if a = 0x1001 then 0xAB else 0,
    size := 0x4000, reg := reg0 }

/-- Machine for the C8 witness: A = 0x9B, CY = 0, AC = 0
(spec §8 scenario 5). -/
def wC8 : Emulator :=
  { pc := 0, sp := 0, ram := fun _ => 0, size := 0x4000,
    reg := { reg0 with a := 0x9B } }

/-- Machine refuting C9 as stated: opcode 0x00 (NOP) has no handler. -/
def cexC9 : Emulator :=
  { pc := 0, sp := 0x3fff, ram := fun _ => 0, size := 0x4000, reg := reg0 }

/-- Machine for the C9 witness: opcode 0x08, another unhandled byte. -/
def wC9 : Emulator :=
  { pc := 0, sp := 0, ram := fun _ => 0x08, size := 0x4000, reg := reg0 }

/-- Machine for the C10 witness: RNZ (0xc0) with the zero flag set, so the
tested NZ condition is false. -/
def wC10 : Emulator :=
  { pc := 0, sp := 0x3fff, ram := fun a => if a = 0 then 0xc0 else 0,
    size := 0x4000, reg := { reg0 with zero := true } }

/-- Composing a high byte shifted left with a small low byte is plain
arithmetic: `(hi << 8) | lo = 256 * hi + lo` when `lo < 256`. -/
theorem word_lor_eq (hi lo : Nat) (hlo : lo < 256) :
    (hi <<< 8) ||| lo = 256 * hi + lo := by
  have h := (Nat.mul_add_lt_is_or (b := lo) (i := 8) (by norm_num [hlo]) hi).symm
  rw [Nat.shiftLeft_eq, Nat.mul_comm]
  rw [h]

/-- Splitting a 16-bit value into the bytes `push` stores and recombining
them the way `pop` does gives the value back. -/
theorem push_pop_word (v : Nat) (hv : v < 65536) :
    ((((v >>> 8) % 256) <<< 8) ||| (v % 256)) = v := by
  have h8 : v >>> 8 = v / 256 := by
    rw [Nat.shiftRight_eq_div_pow]
  have hd : v / 256 < 256 := by omega
  rw [h8, Nat.mod_eq_of_lt hd, word_lor_eq _ _ (Nat.mod_lt _ (by norm_num))]
  omega

theorem setMem_same (m : Nat → Nat) (a v : Nat) : setMem m a v a = v := by
  simp [setMem]

theorem setMem_other (m : Nat → Nat) (a v x : Nat) (hx : x ≠ a) : setMem m a v x = m x := by
  simp [setMem, hx]

set_option maxRecDepth 2000 in
/-- Extracting the high nibble with a mask and a shift is division by 16. -/
theorem byte_high_nibble : ∀ x : Nat, x < 256 → (x &&& 0xF0) >>> 4 = x / 16 := by decide

/-- Masking with 0x0F is reduction mod 16. -/
theorem byte_low_nibble (x : Nat) : x &&& 0x0F = x % 16 := by
  have h := Nat.and_pow_two_sub_one_eq_mod x 4
  norm_num at h
  exact h

set_option maxRecDepth 2000 in
/-- Testing bit 7 of a byte is comparing it with 128. -/
theorem byte_sign_bit : ∀ x : Nat, x < 256 →
    (decide (x &&& 0x80 ≠ 0) = decide (128 ≤ x)) := by decide

/-- Shifting four bits left multiplies by 16. -/
theorem shiftLeft4 (y : Nat) : y <<< 4 = y * 16 := by
  rw [Nat.shiftLeft_eq]

theorem countOnes_and_one (x : Nat) : (countOnes x &&& 1) = countOnes x % 2 :=
  Nat.and_one_is_mod _

/-- Unapplied form of `execute_next`: fetch, advance, dispatch. -/
theorem execute_next_def (e : Emulator) :
    execute_next e = dispatch (e.ram e.pc) { e with pc := e.pc + 1 } := rfl

/-- Successful `push` (SP ≥ 2): high byte to SP−1, low byte to SP−2,
SP left at SP−2. -/
theorem push_ok (e : Emulator) (v : Nat) (h2 : 2 ≤ e.sp) :
    push e v = (.ok (), { e with
      sp := e.sp - 2,
      ram := setMem (setMem e.ram (e.sp - 1) ((v >>> 8) % 256)) (e.sp - 2) (v % 256) }) := by
  rw [push, if_neg (by omega)]
  rfl

/-- Failing `push` (SP < 2): the stack-overflow error, state untouched. -/
theorem push_err (e : Emulator) (v : Nat) (h2 : e.sp < 2) :
    push e v = (.error (.err "PUSH: No more stack space"), e) := by
  rw [push, if_pos h2]

/-- Successful `pop` (SP + 2 within the bound): low byte from SP, high byte
from SP+1, SP left at SP+2. -/
theorem pop_ok (e : Emulator) (hsp : e.sp + 2 ≤ e.size % 65536) :
    pop e = (.ok ((e.ram (e.sp + 1) <<< 8) ||| e.ram e.sp), { e with sp := e.sp + 2 }) := by
  rw [pop, if_neg (by omega)]

/-- Failing `pop`: the stack-underflow error, state untouched. -/
theorem pop_err (e : Emulator) (hsp : e.size % 65536 < e.sp + 2) :
    pop e = (.error (.err "POP: No return address on the stack"), e) := by
  rw [pop, if_pos (by omega)]

/-- Successful `read_addr`: little-endian pair at PC, PC advanced by 2. -/
theorem read_addr_ok (e : Emulator) (hpc : e.pc + 2 ≤ e.size % 65536) :
    read_addr e = (.ok ((e.ram (e.pc + 1) <<< 8) ||| e.ram e.pc), { e with pc := e.pc + 2 }) := by
  rw [read_addr, if_neg (by omega)]

/-- Failing `read_addr`: the fetch-out-of-range error, state untouched. -/
theorem read_addr_err (e : Emulator) (hpc : e.size % 65536 < e.pc + 2) :
    read_addr e = (.error (.err "READ_ADDR: Not enough bytes available"), e) := by
  rw [read_addr, if_pos (by omega)]

/-- Effect of the internal `call` helper when the push fits. -/
theorem call_spec (e : Emulator) (adr : Nat) (h2 : 2 ≤ e.sp) :
    call e adr = (.ok (), { e with
      pc := adr,
      sp := e.sp - 2,
      ram := setMem (setMem e.ram (e.sp - 1) ((e.pc >>> 8) % 256)) (e.sp - 2) (e.pc % 256) }) := by
  rw [call, push_ok e e.pc h2]

/-- Effect of `call_imm` when the operand read and the push both fit: the
pushed return address is the PC past the address operand. -/
theorem call_imm_spec (e : Emulator) (hpc : e.pc + 2 ≤ e.size % 65536)
    (h2 : 2 ≤ e.sp) (hlo : e.ram e.pc < 256) :
    call_imm e = (.ok (), { e with
      pc := e.ram e.pc + 256 * e.ram (e.pc + 1),
      sp := e.sp - 2,
      ram := setMem (setMem e.ram (e.sp - 1) ((e.pc + 2) / 256))
               (e.sp - 2) ((e.pc + 2) % 256) }) := by
  have hdiv : ((e.pc + 2) >>> 8) % 256 = (e.pc + 2) / 256 := by
    rw [Nat.shiftRight_eq_div_pow]
    have : e.pc + 2 < 65536 := by omega
    omega
  simp only [call_imm, read_addr_ok e hpc,
    push_ok { e with pc := e.pc + 2 } (e.pc + 2) h2, hdiv]
  rw [word_lor_eq _ _ hlo, Nat.add_comm (256 * e.ram (e.pc + 1)) (e.ram e.pc)]

/-- A `jmp_not` whose flag is set only advances PC past the operand. -/
theorem jmp_not_skip (e : Emulator) (f : Flag) (hf : e.reg.get_flag f = true) :
    jmp_not e f = (.ok (), { e with pc := e.pc + 2 }) := by
  rw [jmp_not, if_neg (by simp [hf])]

/-- A `jmp_not` whose flag is clear jumps to the little-endian operand. -/
theorem jmp_not_taken (e : Emulator) (f : Flag) (hf : e.reg.get_flag f = false)
    (hpc : e.pc + 2 ≤ e.size % 65536) (hlo : e.ram e.pc < 256) :
    jmp_not e f = (.ok (), { e with pc := e.ram e.pc + 256 * e.ram (e.pc + 1) }) := by
  rw [jmp_not, if_pos hf]
  simp only [read_addr_ok e hpc]
  rw [word_lor_eq _ _ hlo, Nat.add_comm (256 * e.ram (e.pc + 1)) (e.ram e.pc)]

/-- A `jmp_if` whose flag is clear only advances PC past the operand. -/
theorem jmp_if_skip (e : Emulator) (f : Flag) (hf : e.reg.get_flag f = false) :
    jmp_if e f = (.ok (), { e with pc := e.pc + 2 }) := by
  rw [jmp_if, if_neg (by simp [hf])]

/-- A `jmp_if` whose flag is set jumps to the little-endian operand. -/
theorem jmp_if_taken (e : Emulator) (f : Flag) (hf : e.reg.get_flag f = true)
    (hpc : e.pc + 2 ≤ e.size % 65536) (hlo : e.ram e.pc < 256) :
    jmp_if e f = (.ok (), { e with pc := e.ram e.pc + 256 * e.ram (e.pc + 1) }) := by
  rw [jmp_if, if_pos hf]
  simp only [read_addr_ok e hpc]
  rw [word_lor_eq _ _ hlo, Nat.add_comm (256 * e.ram (e.pc + 1)) (e.ram e.pc)]

/-- A `call_not` whose flag is set only advances PC past the operand. -/
theorem call_not_skip (e : Emulator) (f : Flag) (hf : e.reg.get_flag f = true) :
    call_not e f = (.ok (), { e with pc := e.pc + 2 }) := by
  rw [call_not, if_neg (by simp [hf])]

/-- A `call_if` whose flag is clear only advances PC past the operand. -/
theorem call_if_skip (e : Emulator) (f : Flag) (hf : e.reg.get_flag f = false) :
    call_if e f = (.ok (), { e with pc := e.pc + 2 }) := by
  rw [call_if, if_neg (by simp [hf])]

/-- A `call_not` whose flag is clear behaves as `call_imm`. -/
theorem call_not_taken (e : Emulator) (f : Flag) (hf : e.reg.get_flag f = false) :
    call_not e f = call_imm e := by
  rw [call_not, if_pos hf]

/-- A `call_if` whose flag is set behaves as `call_imm`. -/
theorem call_if_taken (e : Emulator) (f : Flag) (hf : e.reg.get_flag f = true) :
    call_if e f = call_imm e := by
  rw [call_if, if_pos hf]

/-- Effect of `ret` when the pop fits: PC is written from the popped word. -/
theorem ret_spec (e : Emulator) (hsp : e.sp + 2 ≤ e.size % 65536) :
    ret e = (.ok (), { e with
      pc := (e.ram (e.sp + 1) <<< 8) ||| e.ram e.sp, sp := e.sp + 2 }) := by
  simp only [ret, pop_ok e hsp]

/-- A `ret_if` whose flag is clear does nothing. -/
theorem ret_if_skip (e : Emulator) (f : Flag) (hf : e.reg.get_flag f = false) :
    ret_if e f = (.ok (), e) := by
  rw [ret_if, if_neg (by simp [hf])]

/-- A `ret_not` whose flag is set does nothing. -/
theorem ret_not_skip (e : Emulator) (f : Flag) (hf : e.reg.get_flag f = true) :
    ret_not e f = (.ok (), e) := by
  rw [ret_not, if_neg (by simp [hf])]

/-- C1 (counterexample to the claim as stated): at SP = 0x4001 — which
satisfies the stated side conditions SP ≥ 2 and SP + 2 ≤ 2^16 — `push`
succeeds but the following `pop` returns the stack-underflow error instead
of the pushed value, because the pop guard compares against
`ram.size() as u16` (0x4000 here, the value the in-src test `push_pop`
forces), not against 2^16. -/
theorem c1_counterexample :
    2 ≤ cexC1.sp ∧ cexC1.sp + 2 ≤ 2 ^ 16 ∧
    (push cexC1 0xABCD).1 = .ok () ∧
    (pop (push cexC1 0xABCD).2).1 =
      .error (.err "POP: No return address on the stack") ∧
    (pop (push cexC1 0xABCD).2).1 ≠ .ok 0xABCD := by
  refine ⟨by decide, by decide, rfl, rfl, ?_⟩
  intro h
  rw [show (pop (push cexC1 0xABCD).2).1 =
    Except.error (.err "POP: No return address on the stack") from rfl] at h
  exact Except.noConfusion h

/-- C1 (amended): for every 16-bit value v and every SP with 2 ≤ SP and
SP ≤ `ram.size() as u16`, push(v) followed by pop() returns v and restores
SP to its original value. -/
theorem c1_push_pop_roundtrip (e : Emulator) (v : Nat) (hv : v < 65536)
    (h2 : 2 ≤ e.sp) (hsp : e.sp ≤ e.size % 65536) :
    (push e v).1 = .ok () ∧
    (pop (push e v).2).1 = .ok v ∧
    (pop (push e v).2).2.sp = e.sp := by
  have hne : e.sp - 1 ≠ e.sp - 2 := by omega
  simp only [push_ok e v h2]
  have hp := pop_ok { e with sp := e.sp - 2, ram := setMem (setMem e.ram (e.sp - 1) ((v >>> 8) % 256)) (e.sp - 2) (v % 256) } (by dsimp only; omega)
  rw [hp]
  dsimp only
  rw [show e.sp - 2 + 1 = e.sp - 1 from by omega]
  rw [setMem_other _ _ _ _ hne, setMem_same, setMem_same]
  rw [push_pop_word v hv]
  exact ⟨trivial, rfl, by omega⟩

/-- C1 (witness): the amended round trip at SP = 0x3fff with v = 0xABCD,
the scenario of the repository test `push_pop`. -/
theorem c1_witness :
    (0xABCD < 65536 ∧ 2 ≤ wC1.sp ∧ wC1.sp ≤ wC1.size % 65536) ∧
    ((push wC1 0xABCD).1 = .ok () ∧
     (pop (push wC1 0xABCD).2).1 = .ok 0xABCD ∧
     (pop (push wC1 0xABCD).2).2.sp = wC1.sp) :=
  ⟨⟨by decide, by decide, by decide⟩,
   c1_push_pop_roundtrip wC1 0xABCD (by decide) (by decide) (by decide)⟩

/-- C2: CALL a16 (0xCD) pushes the return address — the PC after the 3-byte
instruction — onto the stack (high byte at SP−1, low byte at SP−2) and sets
PC to a16; a RET (0xC9) executed immediately afterwards pops that value back
into PC, so PC returns to the instruction after the CALL and SP is unchanged
overall.  In particular the final PC is written from the popped value. -/
theorem c2_call_ret (e : Emulator) (adr : Nat)
    (hadr : adr = e.ram (e.pc + 1) + 256 * e.ram (e.pc + 2))
    (hop : e.ram e.pc = 0xCD)
    (hlo : e.ram (e.pc + 1) < 256)
    (hbound : e.pc + 3 ≤ e.size % 65536)
    (h2 : 2 ≤ e.sp) (hsp : e.sp ≤ e.size % 65536)
    (hne1 : adr ≠ e.sp - 1) (hne2 : adr ≠ e.sp - 2)
    (hret : e.ram adr = 0xC9) :
    (execute_next e).1 = .ok () ∧
    (execute_next e).2.pc = adr ∧
    (execute_next e).2.sp = e.sp - 2 ∧
    (execute_next e).2.ram (e.sp - 1) = (e.pc + 3) / 256 ∧
    (execute_next e).2.ram (e.sp - 2) = (e.pc + 3) % 256 ∧
    (execute_next (execute_next e).2).1 = .ok () ∧
    (execute_next (execute_next e).2).2.pc = e.pc + 3 ∧
    (execute_next (execute_next e).2).2.sp = e.sp := by
  have hb1 : e.pc + 1 + 2 ≤ e.size % 65536 := by omega
  have step1 : execute_next e = (.ok (), { e with
      pc := e.ram (e.pc + 1) + 256 * e.ram (e.pc + 2),
      sp := e.sp - 2,
      ram := setMem (setMem e.ram (e.sp - 1) ((e.pc + 3) / 256))
               (e.sp - 2) ((e.pc + 3) % 256) }) := by
    rw [execute_next_def, hop]
    exact call_imm_spec { e with pc := e.pc + 1 } hb1 h2 hlo
  rw [step1]
  set m1 : Nat → Nat := setMem (setMem e.ram (e.sp - 1) ((e.pc + 3) / 256))
      (e.sp - 2) ((e.pc + 3) % 256) with hm1
  have hram1 : m1 (e.sp - 1) = (e.pc + 3) / 256 := by
    rw [hm1, setMem_other _ _ _ _ (by omega), setMem_same]
  have hram2 : m1 (e.sp - 2) = (e.pc + 3) % 256 := by
    rw [hm1]
    exact setMem_same _ _ _
  have hopc2 : m1 adr = 0xC9 := by
    rw [hm1, setMem_other _ _ _ _ hne2, setMem_other _ _ _ _ hne1]
    exact hret
  have step2 : execute_next { e with
      pc := e.ram (e.pc + 1) + 256 * e.ram (e.pc + 2), sp := e.sp - 2, ram := m1 } =
      (.ok (), { e with
        pc := (m1 (e.sp - 2 + 1) <<< 8) ||| m1 (e.sp - 2), sp := e.sp, ram := m1 }) := by
    rw [execute_next_def]
    show dispatch (m1 (e.ram (e.pc + 1) + 256 * e.ram (e.pc + 2))) _ = _
    rw [show e.ram (e.pc + 1) + 256 * e.ram (e.pc + 2) = adr from hadr.symm, hopc2]
    have hs2 : (e.sp - 2) + 2 ≤ e.size % 65536 := by omega
    have hr := ret_spec { e with
      pc := adr + 1, sp := e.sp - 2, ram := m1 } hs2
    rw [show (e.sp - 2) + 2 = e.sp from by omega] at hr
    exact hr
  rw [step2]
  have hidx : e.sp - 2 + 1 = e.sp - 1 := by omega
  refine ⟨rfl, hadr.symm, rfl, hram1, hram2, rfl, ?_, rfl⟩
  rw [hidx, hram1, hram2, word_lor_eq _ _ (by omega)]
  show 256 * ((e.pc + 3) / 256) + (e.pc + 3) % 256 = e.pc + 3
  omega

/-- C2 (witness): spec §8 scenario 2 — `CD 34 12` at PC = 0, `C9` at 0x1234,
SP = 0x3fff; after one step PC = 0x1234 and SP = 0x3ffd with `03 00` pushed,
after the second step PC = 3 and SP = 0x3fff. -/
theorem c2_witness :
    (wC2.ram wC2.pc = 0xCD ∧ 2 ≤ wC2.sp ∧ wC2.sp ≤ wC2.size % 65536) ∧
    ((execute_next wC2).1 = .ok () ∧
     (execute_next wC2).2.pc = 0x1234 ∧
     (execute_next wC2).2.sp = wC2.sp - 2 ∧
     (execute_next wC2).2.ram (wC2.sp - 1) = (wC2.pc + 3) / 256 ∧
     (execute_next wC2).2.ram (wC2.sp - 2) = (wC2.pc + 3) % 256 ∧
     (execute_next (execute_next wC2).2).1 = .ok () ∧
     (execute_next (execute_next wC2).2).2.pc = wC2.pc + 3 ∧
     (execute_next (execute_next wC2).2).2.sp = wC2.sp) :=
  ⟨⟨rfl, by decide, by decide⟩,
   c2_call_ret wC2 0x1234 (by decide) rfl (by decide) (by decide) (by decide)
     (by decide) (by decide) (by decide) rfl⟩

/-- C3 (counterexample to the claim as stated): CNZ (0xc4) is one of the
eight conditional calls, here with its tested condition false (zero flag
set), so the claim says the instruction succeeds and advances PC past the
operand; instead `execute_next` hits an `unimplemented!()` panic. -/
theorem c3_counterexample :
    cexC3.ram cexC3.pc = 0xc4 ∧ cexC3.reg.get_flag .zero = true ∧
    (execute_next cexC3).1 = .error (.panic "not implemented") ∧
    (execute_next cexC3).1 ≠ .ok () ∧
    (execute_next cexC3).2.pc ≠ cexC3.pc + 3 := by
  refine ⟨rfl, rfl, rfl, ?_, by decide⟩
  intro h
  rw [show (execute_next cexC3).1 =
    Except.error (.panic "not implemented") from rfl] at h
  exact Except.noConfusion h

/-- C3 (amended): for each of the eight conditional jumps and each of the
seven conditional calls that are implemented (CNZ, 0xc4, is not — its arm is
`unimplemented!()`), executing with the tested condition false advances PC
past the 2-byte operand, and executing with the condition true sets PC to
the little-endian operand address — the calls additionally pushing the
return address PC+3 exactly as CALL does (given an in-bounds operand read
and, for the calls, SP ≥ 2). -/
theorem c3_conditional_branches :
    (∀ op f tw, (op, f, tw) ∈ jmpVariants → ∀ e : Emulator,
      e.ram e.pc = op → e.ram (e.pc + 1) < 256 → e.pc + 3 ≤ e.size % 65536 →
      (e.reg.get_flag f ≠ tw →
        execute_next e = (.ok (), { e with pc := e.pc + 3 })) ∧
      (e.reg.get_flag f = tw →
        execute_next e = (.ok (), { e with
          pc := e.ram (e.pc + 1) + 256 * e.ram (e.pc + 2) }))) ∧
    (∀ op f tw, (op, f, tw) ∈ callVariants → ∀ e : Emulator,
      e.ram e.pc = op → e.ram (e.pc + 1) < 256 → e.pc + 3 ≤ e.size % 65536 →
      2 ≤ e.sp →
      (e.reg.get_flag f ≠ tw →
        execute_next e = (.ok (), { e with pc := e.pc + 3 })) ∧
      (e.reg.get_flag f = tw →
        execute_next e = (.ok (), { e with
          pc := e.ram (e.pc + 1) + 256 * e.ram (e.pc + 2),
          sp := e.sp - 2,
          ram := setMem (setMem e.ram (e.sp - 1) ((e.pc + 3) / 256))
                   (e.sp - 2) ((e.pc + 3) % 256) }))) := by
  constructor
  · intro op f tw hv e hop hlo hbound
    rw [execute_next_def, hop]
    have hb1 : e.pc + 1 + 2 ≤ e.size % 65536 := by omega
    fin_cases hv <;>
      refine ⟨fun hc => ?_, fun hc => ?_⟩ <;>
      first
        | exact jmp_not_skip { e with pc := e.pc + 1 } _ (by revert hc; simp)
        | exact jmp_if_skip { e with pc := e.pc + 1 } _ (by revert hc; simp)
        | exact jmp_not_taken { e with pc := e.pc + 1 } _ hc hb1 hlo
        | exact jmp_if_taken { e with pc := e.pc + 1 } _ hc hb1 hlo
  · intro op f tw hv e hop hlo hbound hsp
    rw [execute_next_def, hop]
    have hb1 : e.pc + 1 + 2 ≤ e.size % 65536 := by omega
    fin_cases hv <;>
      refine ⟨fun hc => ?_, fun hc => ?_⟩ <;>
      first
        | exact call_not_skip { e with pc := e.pc + 1 } _ (by revert hc; simp)
        | exact call_if_skip { e with pc := e.pc + 1 } _ (by revert hc; simp)
        | exact (call_not_taken { e with pc := e.pc + 1 } _ hc).trans
            (call_imm_spec { e with pc := e.pc + 1 } hb1 hsp hlo)
        | exact (call_if_taken { e with pc := e.pc + 1 } _ hc).trans
            (call_imm_spec { e with pc := e.pc + 1 } hb1 hsp hlo)

/-- C3 (witness): JNZ 1234h (0xc2) with the zero flag clear jumps to
0x1234. -/
theorem c3_witness :
    ((0xc2, Flag.zero, false) ∈ jmpVariants ∧ wC3.ram wC3.pc = 0xc2 ∧
     wC3.ram (wC3.pc + 1) < 256 ∧ wC3.pc + 3 ≤ wC3.size % 65536 ∧
     wC3.reg.get_flag .zero = false) ∧
    execute_next wC3 =
      (.ok (), { wC3 with pc := wC3.ram (wC3.pc + 1) + 256 * wC3.ram (wC3.pc + 2) }) :=
  ⟨⟨by decide, rfl, by decide, by decide, rfl⟩,
   (c3_conditional_branches.1 0xc2 .zero false (by decide) wC3 rfl
     (by decide) (by decide)).2 rfl⟩

/-- C4 (counterexample to the claim as stated): from the same PC = 0 and
SP = 0x3fff, RST 0 (0xc7) and CALL 0x0000 (`CD 00 00`) both end with
PC = 0 and SP = 0x3ffd, but the pushed return addresses differ — RST pushes
PC+1 (low byte 1 at 0x3ffd) while CALL pushes PC+3 (low byte 3) — so the two
final machine states are not equal. -/
theorem c4_counterexample :
    (execute_next rstStart).1 = .ok () ∧ (execute_next callStart).1 = .ok () ∧
    (execute_next rstStart).2.pc = 0 ∧ (execute_next callStart).2.pc = 0 ∧
    (execute_next rstStart).2.sp = 0x3ffd ∧ (execute_next callStart).2.sp = 0x3ffd ∧
    (execute_next rstStart).2.ram 0x3ffd = 1 ∧ (execute_next callStart).2.ram 0x3ffd = 3 ∧
    (execute_next rstStart).2.ram 0x3ffd ≠ (execute_next callStart).2.ram 0x3ffd := by
  refine ⟨rfl, rfl, rfl, rfl, rfl, rfl, rfl, rfl, by decide⟩

/-- C4 (amended): for n < 8, RST n (opcode 0xc7 + 8·n) pushes the current
PC — the address of the byte after the 1-byte instruction — and sets PC to
8·n; this is exactly the effect of the internal `call(8·n)` helper applied
after the opcode fetch.  (It is not state-equal to the 3-byte CALL (8·n)
instruction, which pushes PC+3; see the counterexample.) -/
theorem c4_rst (n : Nat) (hn : n < 8) (e : Emulator)
    (hop : e.ram e.pc = 0xc7 + 8 * n) (hsp : 2 ≤ e.sp) (hpc : e.pc + 1 < 65536) :
    execute_next e = call { e with pc := e.pc + 1 } (8 * n) ∧
    execute_next e = (.ok (), { e with
      pc := 8 * n,
      sp := e.sp - 2,
      ram := setMem (setMem e.ram (e.sp - 1) ((e.pc + 1) / 256))
               (e.sp - 2) ((e.pc + 1) % 256) }) := by
  have hdiv : ((e.pc + 1) >>> 8) % 256 = (e.pc + 1) / 256 := by
    rw [Nat.shiftRight_eq_div_pow]
    have : (e.pc + 1) / 256 < 256 := by omega
    omega
  constructor
  · rw [execute_next_def, hop]
    interval_cases n <;> rfl
  · rw [execute_next_def, hop]
    have hc := call_spec { e with pc := e.pc + 1 } (8 * n) hsp
    dsimp only at hc
    rw [hdiv] at hc
    interval_cases n <;> exact hc

/-- C4 (witness): RST 2 (0xd7) at PC = 0x1111 pushes 0x1112 and jumps to
0x10, matching spec §8 scenario 4. -/
theorem c4_witness :
    (2 < 8 ∧ wC4.ram wC4.pc = 0xc7 + 8 * 2 ∧ 2 ≤ wC4.sp ∧ wC4.pc + 1 < 65536) ∧
    (execute_next wC4 = call { wC4 with pc := wC4.pc + 1 } (8 * 2) ∧
     execute_next wC4 = (.ok (), { wC4 with
       pc := 8 * 2,
       sp := wC4.sp - 2,
       ram := setMem (setMem wC4.ram (wC4.sp - 1) ((wC4.pc + 1) / 256))
                (wC4.sp - 2) ((wC4.pc + 1) % 256) })) :=
  ⟨⟨by decide, by decide, by decide, by decide⟩,
   c4_rst 2 (by decide) wC4 (by decide) (by decide) (by decide)⟩

/-- C5 (counterexample to the claim as stated): at PC = 0x5000 the two-byte
read stays far below 2^16, so by the claim `read_addr` should return the
immediate and advance PC; instead it fails with the fetch-out-of-range
error, because the bound is `ram.size() as u16` (0x4000 here), not 2^16. -/
theorem c5_counterexample :
    cexC5.pc + 2 ≤ 2 ^ 16 ∧
    (read_addr cexC5).1 = .error (.err "READ_ADDR: Not enough bytes available") ∧
    (read_addr cexC5).1 ≠ .ok (cexC5.ram cexC5.pc + 256 * cexC5.ram (cexC5.pc + 1)) ∧
    (read_addr cexC5).2.pc = cexC5.pc := by
  refine ⟨by decide, rfl, ?_, rfl⟩
  intro h
  rw [show (read_addr cexC5).1 =
    Except.error (.err "READ_ADDR: Not enough bytes available") from rfl] at h
  exact Except.noConfusion h

/-- C5 (amended): when the two-byte read fits below `ram.size() as u16`
(the bound actually tested — 0x4000 for the default RAM, not 2^16),
`read_addr` returns the little-endian immediate with low byte at PC and high
byte at PC+1 and advances PC by 2; when the read would pass that bound it
fails with the fetch-out-of-range error and leaves the state untouched. -/
theorem c5_read_addr (e : Emulator) (hbyte0 : e.ram e.pc < 256) :
    (e.pc + 2 ≤ e.size % 65536 →
      read_addr e = (.ok (e.ram e.pc + 256 * e.ram (e.pc + 1)), { e with pc := e.pc + 2 })) ∧
    (e.size % 65536 < e.pc + 2 →
      read_addr e = (.error (.err "READ_ADDR: Not enough bytes available"), e)) := by
  constructor
  · intro hb
    rw [read_addr_ok e hb, word_lor_eq _ _ hbyte0,
      Nat.add_comm (256 * e.ram (e.pc + 1)) (e.ram e.pc)]
  · intro hb
    exact read_addr_err e hb

/-- C5 (witness): reading the pair `34 12` at PC = 0 yields 0x1234 and
PC = 2. -/
theorem c5_witness :
    wC5.ram wC5.pc < 256 ∧
    ((wC5.pc + 2 ≤ wC5.size % 65536 →
       read_addr wC5 = (.ok (wC5.ram wC5.pc + 256 * wC5.ram (wC5.pc + 1)),
         { wC5 with pc := wC5.pc + 2 })) ∧
     (wC5.size % 65536 < wC5.pc + 2 →
       read_addr wC5 = (.error (.err "READ_ADDR: Not enough bytes available"), wC5))) :=
  ⟨by decide, c5_read_addr wC5 (by decide)⟩

/-- C6: `push` fails with the stack-overflow error exactly when SP < 2, and
`pop` fails with the stack-underflow error exactly when the two-byte read
would exceed the memory bound; in each failure the error is a returned
result and the whole state — SP, memory, registers — is exactly as before
the operation. -/
theorem c6_stack_errors (e : Emulator) (v : Nat) (hsize : e.size < 65536) :
    ((push e v).1 = .error (.err "PUSH: No more stack space") ↔ e.sp < 2) ∧
    (e.sp < 2 → push e v = (.error (.err "PUSH: No more stack space"), e)) ∧
    ((pop e).1 = .error (.err "POP: No return address on the stack") ↔ e.size < e.sp + 2) ∧
    (e.size < e.sp + 2 → pop e = (.error (.err "POP: No return address on the stack"), e)) := by
  have hm : e.size % 65536 = e.size := Nat.mod_eq_of_lt hsize
  refine ⟨⟨fun h => ?_, fun h => by rw [push_err e v h]⟩, fun h => push_err e v h,
    ⟨fun h => ?_, fun h => by rw [pop_err e (by omega)]⟩, fun h => pop_err e (by omega)⟩
  · by_contra hh
    rw [push_ok e v (by omega)] at h
    simp at h
  · by_contra hh
    rw [pop_ok e (by omega)] at h
    simp at h

/-- C6 (witness): at SP = 0x3fff and size 0x4000, the push guard is off and
the pop guard fires — the situation of the second pop in the repository test
`push_pop`. -/
theorem c6_witness :
    wC6.size < 65536 ∧
    (((push wC6 0x1234).1 = .error (.err "PUSH: No more stack space") ↔ wC6.sp < 2) ∧
     (wC6.sp < 2 → push wC6 0x1234 = (.error (.err "PUSH: No more stack space"), wC6)) ∧
     ((pop wC6).1 = .error (.err "POP: No return address on the stack") ↔
       wC6.size < wC6.sp + 2) ∧
     (wC6.size < wC6.sp + 2 →
       pop wC6 = (.error (.err "POP: No return address on the stack"), wC6))) :=
  ⟨by decide, c6_stack_errors wC6 0x1234 (by decide)⟩

/-- C7: a successful push of a 16-bit value writes its high byte at SP−1 and
its low byte at SP−2 and leaves SP at SP−2; a successful pop reads the low
byte at SP and the high byte at SP+1, returns high·256 + low, and leaves SP
at SP+2. -/
theorem c7_push_pop_layout (e : Emulator) (v : Nat) (hv : v < 65536) :
    (2 ≤ e.sp →
      (push e v).1 = .ok () ∧
      (push e v).2.ram (e.sp - 1) = v / 256 ∧
      (push e v).2.ram (e.sp - 2) = v % 256 ∧
      (push e v).2.sp = e.sp - 2) ∧
    (e.sp + 2 ≤ e.size % 65536 → e.ram e.sp < 256 →
      (pop e).1 = .ok (256 * e.ram (e.sp + 1) + e.ram e.sp) ∧
      (pop e).2.sp = e.sp + 2) := by
  constructor
  · intro h2
    have hdiv : (v >>> 8) % 256 = v / 256 := by
      rw [Nat.shiftRight_eq_div_pow]
      omega
    rw [push_ok e v h2]
    refine ⟨rfl, ?_, ?_, rfl⟩
    · dsimp only
      rw [setMem_other _ _ _ _ (by omega), setMem_same, hdiv]
    · dsimp only
      rw [setMem_same]
  · intro hb hlo
    rw [pop_ok e hb]
    exact ⟨by rw [word_lor_eq _ _ hlo], rfl⟩

/-- C7 (witness): pushing 0x5678 at SP = 0x1000 and popping the bytes
`CD AB` stored there. -/
theorem c7_witness :
    0x5678 < 65536 ∧
    ((2 ≤ wC7.sp →
       (push wC7 0x5678).1 = .ok () ∧
       (push wC7 0x5678).2.ram (wC7.sp - 1) = 0x5678 / 256 ∧
       (push wC7 0x5678).2.ram (wC7.sp - 2) = 0x5678 % 256 ∧
       (push wC7 0x5678).2.sp = wC7.sp - 2) ∧
     (wC7.sp + 2 ≤ wC7.size % 65536 → wC7.ram wC7.sp < 256 →
       (pop wC7).1 = .ok (256 * wC7.ram (wC7.sp + 1) + wC7.ram wC7.sp) ∧
       (pop wC7).2.sp = wC7.sp + 2)) :=
  ⟨by decide, c7_push_pop_layout wC7 0x5678 (by decide)⟩

/-- C8: `daa()` decimal-adjusts A.  With A the original accumulator byte:
if the low nibble of A exceeds 9 or AC is set, 6 is added to A (call the
result A1, otherwise A1 = A) and AC is set exactly when the low nibble
crossed 0x0F; if the high nibble of A1 exceeds 9 or CY is set, 6 is added to
that nibble and CY is set exactly when it crossed 0x0F; the adjusted
accumulator is reassembled from the two nibbles, and Z, S, P are recomputed
from it.  (The concrete A = 0x9B instance is the witness below.) -/
theorem c8_daa (e : Emulator) (ha : e.reg.a < 256) :
    (daa e).1 = .ok () ∧
    ((daa e).2.pc = e.pc ∧ (daa e).2.sp = e.sp ∧ (daa e).2.ram = e.ram) ∧
    (let A := e.reg.a
     let adj1 := 9 < A % 16 ∨ e.reg.aux = true
     let A1 := if adj1 then (A + 6) % 256 else A
     let low1 := if adj1 then A % 16 + 6 else A % 16
     let adj2 := 9 < A1 / 16 ∨ e.reg.carry = true
     let hi1 := if adj2 then A1 / 16 + 6 else A1 / 16
     let res := hi1 % 16 * 16 + low1 % 16
     (daa e).2.reg.a = res ∧
     ((daa e).2.reg.aux = true ↔ adj1 ∧ 15 < A % 16 + 6) ∧
     ((daa e).2.reg.carry = true ↔ adj2 ∧ 15 < A1 / 16 + 6) ∧
     ((daa e).2.reg.zero = true ↔ res = 0) ∧
     ((daa e).2.reg.sign = true ↔ 128 ≤ res) ∧
     ((daa e).2.reg.parity = true ↔ countOnes res % 2 = 0)) := by
  refine ⟨rfl, ⟨rfl, rfl, rfl⟩, ?_⟩
  simp only [daa, RegisterArray.get_flag, RegisterArray.set_flag, byte_low_nibble,
    shiftLeft4, countOnes_and_one]
  by_cases h1 : 9 < e.reg.a % 16 ∨ e.reg.aux = true
  · simp only [if_pos h1]
    have hacc : (e.reg.a + 6) % 256 < 256 := by omega
    rw [byte_high_nibble _ hacc]
    by_cases h2 : 9 < (e.reg.a + 6) % 256 / 16 ∨ e.reg.carry = true
    · have hres : ((e.reg.a + 6) % 256 / 16 + 6) % 16 * 16 + (e.reg.a % 16 + 6) % 16 < 256 := by
        omega
      simp only [if_pos h2, byte_sign_bit _ hres, decide_eq_true_eq]
      simp [h1, h2]
      try omega
    · have hres : (e.reg.a + 6) % 256 / 16 % 16 * 16 + (e.reg.a % 16 + 6) % 16 < 256 := by
        omega
      simp only [if_neg h2, byte_sign_bit _ hres, decide_eq_true_eq]
      simp [h1, h2]
      try omega
  · simp only [if_neg h1]
    rw [byte_high_nibble _ ha]
    by_cases h2 : 9 < e.reg.a / 16 ∨ e.reg.carry = true
    · have hres : (e.reg.a / 16 + 6) % 16 * 16 + e.reg.a % 16 % 16 < 256 := by omega
      simp only [if_pos h2, byte_sign_bit _ hres, decide_eq_true_eq]
      simp [h1, h2]
      try omega
    · have hres : e.reg.a / 16 % 16 * 16 + e.reg.a % 16 % 16 < 256 := by omega
      simp only [if_neg h2, byte_sign_bit _ hres, decide_eq_true_eq]
      simp [h1, h2]
      try omega

/-- C8 (witness): from A = 0x9B, CY = 0, AC = 0, `daa` yields A = 0x01,
CY = 1, AC = 1, Z = 0, S = 0, P = 0 — the literal scenario of the claim
(spec §8 scenario 5). -/
theorem c8_witness :
    wC8.reg.a < 256 ∧
    (daa wC8).1 = .ok () ∧
    ((daa wC8).2.reg.a = 0x01 ∧
     (daa wC8).2.reg.carry = true ∧
     (daa wC8).2.reg.aux = true ∧
     (daa wC8).2.reg.zero = false ∧
     (daa wC8).2.reg.sign = false ∧
     (daa wC8).2.reg.parity = false) :=
  ⟨by decide, (c8_daa wC8 (by decide)).1, rfl, rfl, rfl, rfl, rfl, rfl⟩

/-- C9 (counterexample to the claim as stated): opcode 0x00 (NOP) has no
handler, and `execute_next` does not return an unimplemented-opcode error as
a result — the outcome is an `unimplemented!()` panic, a different failure
mode. -/
theorem c9_counterexample :
    isHandled (cexC9.ram cexC9.pc) = false ∧
    (execute_next cexC9).1 = .error (.panic "Opcode not yet implemented") ∧
    isErrResult (execute_next cexC9) = false ∧
    isPanicOutcome (execute_next cexC9) = true :=
  ⟨rfl, rfl, rfl, rfl⟩

set_option maxRecDepth 4000 in
/-- C9 (amended): for every opcode byte with no handler, `execute_next`
panics via `unimplemented!()` — it does not return an error result — and the
state at the panic is the post-fetch state (only PC advanced past the
opcode). -/
theorem c9_unimplemented_panics (e : Emulator) (hbyte : e.ram e.pc < 256)
    (hop : isHandled (e.ram e.pc) = false) :
    isPanicOutcome (execute_next e) = true ∧
    isErrResult (execute_next e) = false ∧
    (execute_next e).2 = { e with pc := e.pc + 1 } := by
  rw [execute_next_def]
  revert hop
  generalize e.ram e.pc = op at hbyte ⊢
  intro hop
  interval_cases op <;>
    first
      | exact absurd hop (by decide)
      | exact ⟨rfl, rfl, rfl⟩

/-- C9 (witness): opcode 0x08 is unhandled; the outcome is a panic, not an
error result, and only PC has advanced. -/
theorem c9_witness :
    (wC9.ram wC9.pc < 256 ∧ isHandled (wC9.ram wC9.pc) = false) ∧
    (isPanicOutcome (execute_next wC9) = true ∧
     isErrResult (execute_next wC9) = false ∧
     (execute_next wC9).2 = { wC9 with pc := wC9.pc + 1 }) :=
  ⟨⟨by decide, by decide⟩, c9_unimplemented_panics wC9 (by decide) (by decide)⟩

/-- C10: for each conditional return (RNZ/RZ/RNC/RC/RPO/RPE/RP/RM), when the
tested condition is false the instruction succeeds and performs no state
change beyond the opcode fetch: PC advances only past the opcode byte, and
SP, memory, and all registers and flags are unchanged. -/
theorem c10_conditional_ret_frame (op : Nat) (f : Flag) (tw : Bool)
    (hv : (op, f, tw) ∈ retVariants) (e : Emulator)
    (hop : e.ram e.pc = op) (hcond : e.reg.get_flag f ≠ tw) :
    execute_next e = (.ok (), { e with pc := e.pc + 1 }) := by
  rw [execute_next_def, hop]
  fin_cases hv <;>
    first
      | exact ret_not_skip { e with pc := e.pc + 1 } _ (by revert hcond; simp)
      | exact ret_if_skip { e with pc := e.pc + 1 } _ (by revert hcond; simp)

/-- C10 (witness): RNZ (0xc0) with the zero flag set succeeds and changes
nothing but PC, which moves one byte. -/
theorem c10_witness :
    ((0xc0, Flag.zero, false) ∈ retVariants ∧ wC10.ram wC10.pc = 0xc0 ∧
     wC10.reg.get_flag .zero ≠ false) ∧
    execute_next wC10 = (.ok (), { wC10 with pc := wC10.pc + 1 }) :=
  ⟨⟨by decide, rfl, by decide⟩,
   c10_conditional_ret_frame 0xc0 .zero false (by decide) wC10 rfl (by decide)⟩

end Emu8080
